import Mathlib

/-!
Verification development for the gexbot-integration backend
(src/backend/app.py, src/backend/scheduler.py, src/backend/dashboard_image.py).

Python numbers are modelled as rationals, Python JSON values as an inductive
type, the relational store as lists of typed rows, and fallible operations as
Option results or explicit error flags. Each definition shallowly embeds the
corresponding source function.
-/

attribute [local semireducible] Rat.mul Rat.add Rat.sub Rat.inv Rat.ofScientific

namespace Gexbot

/-- The optional 4th element of a per-strike tuple: either a scalar prior or a
historical array of priors (dashboard_image.py uses both shapes). -/
inductive PriorVal where
  | scalar (q : ℚ)
  | arr (l : List ℚ)
  deriving DecidableEq, Repr

/-- One entry of the per-strike array `strikes`: the Python tuple
[strike, gex_vol, gex_oi, optional prior]. -/
structure StrikeEntry where
  strike : ℚ
  gexVol : ℚ
  gexOi : ℚ
  prior : Option PriorVal := none
  deriving DecidableEq, Repr

/-- A chain payload as consumed by scheduler.py and dashboard_image.py.
Every field is optional because the Python code reads it with dict.get,
which yields None when the key is absent. -/
structure ChainPayload where
  timestamp : Option Int := none
  tickerField : Option String := none
  spot : Option ℚ := none
  sum_gex_vol : Option ℚ := none
  sum_gex_oi : Option ℚ := none
  zero_gamma : Option ℚ := none
  major_pos_vol : Option ℚ := none
  major_pos_oi : Option ℚ := none
  major_neg_vol : Option ℚ := none
  major_neg_oi : Option ℚ := none
  strikes : Option (List StrikeEntry) := none
  spot_priors : Option (List ℚ) := none
  deriving DecidableEq, Repr

/-- Floor of a rational as an integer, computed on the reduced fraction with
floor division (the denominator of a rational is always positive). -/
def ratFloor (x : ℚ) : Int :=
  Int.fdiv x.num (Int.ofNat x.den)

/-- Round-half-to-even on rationals: the rounding used by Python round()
and by the "%.1f" style float formatting. -/
def roundHalfEven (x : ℚ) : Int :=
  let f : Int := ratFloor x
  let r : ℚ := x - f
  if r < 1/2 then f
  else if 1/2 < r then f + 1
  else if f % 2 = 0 then f else f + 1

/-- Python f-string formatting with one decimal place, on an exact rational:
the embedding of a Python expression of the form f"\x7bx:.1f\x7d". -/
def fmt1 (x : ℚ) : String :=
  let n : Int := roundHalfEven (x * 10)
  let sign : String := if n < 0 ∨ (n = 0 ∧ x < 0) then "-" else ""
  let a : Nat := n.natAbs
  sign ++ toString (a / 10) ++ "." ++ toString (a % 10)

/-- dashboard_image.py _format_compact: abbreviate a number with a B, M or K
suffix depending on its magnitude. -/
def formatCompact (value : ℚ) : String :=
  let absVal : ℚ := |value|
  if absVal ≥ 1000000000 then fmt1 (value / 1000000000) ++ "B"
  else if absVal ≥ 1000000 then fmt1 (value / 1000000) ++ "M"
  else if absVal ≥ 1000 then fmt1 (value / 1000) ++ "K"
  else fmt1 value

/-- Result quadruple of _filter_strikes_near_spot: the four parallel lists
built by the filtering loop. -/
structure FilteredStrikes where
  strikes : List Int
  gexVol : List ℚ
  gexOi : List ℚ
  priors : List PriorVal
  deriving DecidableEq, Repr

/-- dashboard_image.py _filter_strikes_near_spot: keep strikes within
pct_range of spot (inclusive bounds); empty result when spot is 0.
The Python append loop is expressed as a filter followed by maps. -/
def filterStrikesNearSpot (chainData : ChainPayload) (pctRange : ℚ) : FilteredStrikes :=
  let spot : ℚ := chainData.spot.getD 0
  if spot = 0 then ⟨[], [], [], []⟩
  else
    let lower : ℚ := spot * (1 - pctRange)
    let upper : ℚ := spot * (1 + pctRange)
    let strikesRaw : List StrikeEntry := chainData.strikes.getD []
    let kept : List StrikeEntry :=
      strikesRaw.filter (fun s => decide (lower ≤ s.strike) && decide (s.strike ≤ upper))
    ⟨kept.map (fun s => roundHalfEven s.strike),
     kept.map (fun s => s.gexVol),
     kept.map (fun s => s.gexOi),
     kept.map (fun s => s.prior.getD (PriorVal.scalar 0))⟩

/-- Left fold of max over a list with an initial value: the embedding of a
Python max(...) over a non-empty sequence, seeded with its first element. -/
def listMax1 (x : ℚ) : List ℚ → ℚ
  | [] => x
  | y :: ys => listMax1 (max x y) ys

/-- The Python conditional expression computing max_abs in _draw_trend_pivots:
the maximum of a sequence when it is non-empty, else the literal 1. -/
def pyMaxOr1 : List ℚ → ℚ
  | [] => 1
  | x :: xs => listMax1 x xs

/-- The value pipeline of dashboard_image.py _draw_trend_pivots: re-filter
strikes at pct_range 0.02, return early (no scaling) when the filtered strike
list is empty, otherwise divide each GEX-by-volume value by the maximum
absolute value and multiply by 100. The none result marks the
ZeroDivisionError Python raises when that maximum is 0; the divisor 1 is used
exactly when the value list is empty, as in the source conditional. -/
def trendPivotsScaled (chainData : ChainPayload) : Option (List ℚ) :=
  let f := filterStrikesNearSpot chainData (2/100)
  if f.strikes.isEmpty then some []
  else
    let maxAbs : ℚ := pyMaxOr1 (f.gexVol.map (fun v => |v|))
    if maxAbs = 0 then none
    else some (f.gexVol.map (fun v => v / maxAbs * 100))

/-- dashboard_image.py is_market_hours, over an explicit Eastern wall clock:
weekday as Python datetime.weekday() (Monday 0 .. Sunday 6) and the time of
day in microseconds since midnight (datetime comparison on a fixed date
compares hour, minute, second and microsecond). market_open is
09:15:00.000000 and market_close is 16:05:00.000000. -/
def is_market_hours (weekday : Nat) (todMicros : Nat) : Bool :=
  if 5 ≤ weekday then false
  else
    let marketOpen : Nat := 33300000000
    let marketClose : Nat := 57900000000
    decide (marketOpen ≤ todMicros) && decide (todMicros ≤ marketClose)

/-- A Python JSON value, as returned by resp.json(). -/
inductive JsonVal where
  | null
  | bool (b : Bool)
  | num (q : ℚ)
  | str (s : String)
  | arr (l : List JsonVal)
  | obj (l : List (String × JsonVal))

/-- Python truthiness of a JSON value: None, False, 0, empty string, empty
array and empty object are falsy, everything else truthy. -/
def JsonVal.truthy : JsonVal → Bool
  | .null => false
  | .bool b => b
  | .num q => decide (q ≠ 0)
  | .str s => decide (s ≠ "")
  | .arr l => !l.isEmpty
  | .obj l => !l.isEmpty

/-- Outcome of one upstream HTTP fetch as observed by the scheduler: a 200
response with a parsed JSON body, a non-200 status, or a raised exception
(network failure, timeout, or a failure inside the fetch block). -/
inductive FetchResult where
  | ok (body : JsonVal)
  | badStatus (code : Nat)
  | raised

/-- The upstream environment for one scheduler pass over one ticker: what the
chain fetch and the max-change fetch would each produce if attempted. -/
structure TickerEnv where
  chain : FetchResult
  maxch : FetchResult

/-- Observable trace of scheduler.py fetch_and_cache_ticker: which steps ran,
which alerts were sent, and the returned (chain_data, maxchange_data) pair. -/
structure TickerTrace where
  chainCacheCalled : Bool
  chainAlerted : Bool
  mcFetchAttempted : Bool
  mcCacheCalled : Bool
  mcAlerted : Bool
  exnAlerted : Bool
  chainData : Option JsonVal
  mcData : Option JsonVal

/-- scheduler.py fetch_and_cache_ticker: both fetches sit in a single try
block. A 200 chain response is cached and kept; a non-200 chain status is
logged and alerted and control flows on to the max-change fetch; a raised
exception jumps to the except handler, so the max-change fetch is skipped.
The max-change fetch behaves the same way for its own three outcomes. -/
def fetch_and_cache_ticker (env : TickerEnv) : TickerTrace :=
  match env.chain with
  | .raised =>
      ⟨false, false, false, false, false, true, none, none⟩
  | .ok body =>
      match env.maxch with
      | .raised => ⟨true, false, true, false, false, true, some body, none⟩
      | .ok mcBody => ⟨true, false, true, true, false, false, some body, some mcBody⟩
      | .badStatus _ => ⟨true, false, true, false, true, false, some body, none⟩
  | .badStatus _ =>
      match env.maxch with
      | .raised => ⟨false, true, true, false, false, true, none, none⟩
      | .ok mcBody => ⟨false, true, true, true, false, false, none, some mcBody⟩
      | .badStatus _ => ⟨false, true, true, false, true, false, none, none⟩

/-- The guard of the dashboard step in fetch_cache_and_generate: the Python
condition chain_data and maxchange_data, with None falsy. -/
def shouldGenerate (tr : TickerTrace) : Bool :=
  (match tr.chainData with
   | some j => j.truthy
   | none => false) &&
  (match tr.mcData with
   | some j => j.truthy
   | none => false)

/-- One ticker of a scheduler cycle: its trace and how many times
generate_and_send was invoked (once per configured webhook when the guard
passes). -/
structure TickerRun where
  ticker : String
  trace : TickerTrace
  generateCalls : Nat

/-- scheduler.py fetch_cache_and_generate: process every configured ticker in
order; for each, run fetch_and_cache_ticker and, when both returned payloads
are truthy, call generate_and_send once per configured webhook. -/
def fetch_cache_and_generate (tickers : List String) (env : String → TickerEnv)
    (numWebhooks : Nat) : List TickerRun :=
  tickers.map (fun t =>
    let tr := fetch_and_cache_ticker (env t)
    ⟨t, tr, if shouldGenerate tr then numWebhooks else 0⟩)

/-- A row of the gex_snapshots table as written by cache_chain_data. -/
structure SnapshotRow where
  timestamp : Option Int
  ticker : String
  spotPrice : Option ℚ
  sumGexVol : Option ℚ
  strikesData : List StrikeEntry
  fullData : ChainPayload
  deriving DecidableEq, Repr

/-- A row of the gex_major_levels table as written by cache_chain_data. -/
structure MajorRow where
  timestamp : Option Int
  ticker : String
  spot : Option ℚ
  zeroGamma : Option ℚ
  mposVol : Option ℚ
  mposOi : Option ℚ
  mnegVol : Option ℚ
  mnegOi : Option ℚ
  netGexVol : Option ℚ
  netGexOi : Option ℚ
  deriving DecidableEq, Repr

/-- SQL uniqueness comparison of two timestamp column values: NULLs never
conflict with anything, two non-NULL values conflict when equal. -/
def tsConflict : Option Int → Option Int → Bool
  | some a, some b => a == b
  | _, _ => false

/-- The ON CONFLICT (ticker, timestamp) key comparison for gex_snapshots. -/
def snapConflicts (a b : SnapshotRow) : Bool :=
  a.ticker == b.ticker && tsConflict a.timestamp b.timestamp

/-- The ON CONFLICT (ticker, timestamp) key comparison for gex_major_levels. -/
def majorConflicts (a b : MajorRow) : Bool :=
  a.ticker == b.ticker && tsConflict a.timestamp b.timestamp

/-- INSERT ... ON CONFLICT (ticker, timestamp) DO NOTHING on gex_snapshots:
append the row unless an existing row has a conflicting key. -/
def insertSnap (tbl : List SnapshotRow) (r : SnapshotRow) : List SnapshotRow :=
  if tbl.any (fun x => snapConflicts x r) then tbl else tbl ++ [r]

/-- INSERT ... ON CONFLICT (ticker, timestamp) DO NOTHING on gex_major_levels. -/
def insertMajor (tbl : List MajorRow) (r : MajorRow) : List MajorRow :=
  if tbl.any (fun x => majorConflicts x r) then tbl else tbl ++ [r]

/-- The gex_snapshots row cache_chain_data builds from a payload: timestamp,
ticker, spot, sum_gex_vol, the strikes array (empty list default) and the
whole payload as full_data. -/
def snapshotRowOf (ticker : String) (d : ChainPayload) : SnapshotRow :=
  ⟨d.timestamp, ticker, d.spot, d.sum_gex_vol, d.strikes.getD [], d⟩

/-- The companion gex_major_levels row cache_chain_data builds from a
payload. -/
def majorRowOf (ticker : String) (d : ChainPayload) : MajorRow :=
  ⟨d.timestamp, ticker, d.spot, d.zero_gamma, d.major_pos_vol, d.major_pos_oi,
   d.major_neg_vol, d.major_neg_oi, d.sum_gex_vol, d.sum_gex_oi⟩

/-- The two store tables cache_chain_data touches. -/
structure DB where
  snapshots : List SnapshotRow
  majorLevels : List MajorRow
  deriving DecidableEq, Repr

/-- What a call to cache_chain_data leaves behind: the store state after
commit or rollback, and whether an error was logged. The function always
returns normally (the except clause swallows the exception), which the plain
non-Except result type records. -/
structure CacheResult where
  db : DB
  errorLogged : Bool
  deriving DecidableEq, Repr

/-- scheduler.py cache_chain_data: inside one transaction, insert the
gex_snapshots row, then the gex_major_levels row, then commit. The flags say
whether the first execute, the second execute, or the commit raises; on any
of them the except clause rolls the transaction back (the store keeps its
prior state) and logs the error. -/
def cache_chain_data (db : DB) (ticker : String) (d : ChainPayload)
    (errExec1 errExec2 errCommit : Bool) : CacheResult :=
  if errExec1 then ⟨db, true⟩
  else
    let pending1 : DB := { db with snapshots := insertSnap db.snapshots (snapshotRowOf ticker d) }
    if errExec2 then ⟨db, true⟩
    else
      let pending2 : DB :=
        { pending1 with majorLevels := insertMajor pending1.majorLevels (majorRowOf ticker d) }
      if errCommit then ⟨db, true⟩
      else ⟨pending2, false⟩

/-- Outcome of one requests.post call to a webhook: a response with some
status code, or a raised transport exception. -/
inductive PostOutcome where
  | ok (status : Nat)
  | exn
  deriving DecidableEq, Repr

/-- True exactly when the post raised. -/
def PostOutcome.isExn : PostOutcome → Bool
  | .ok _ => false
  | .exn => true

/-- Observable result of send_discord_alert: the webhooks posted to, in
order, and the webhooks whose post raised and was logged as an error. -/
structure AlertResult where
  attempted : List String
  errorsLogged : List String
  deriving DecidableEq, Repr

/-- The for loop of scheduler.py send_discord_alert: post to each webhook;
a raised exception is caught and logged inside the loop body, so the loop
always proceeds to the next webhook. The response object is discarded
without reading its status. -/
def postLoop (outcome : String → PostOutcome) : List String → AlertResult
  | [] => ⟨[], []⟩
  | w :: rest =>
      let r := postLoop outcome rest
      match outcome w with
      | .ok _ => ⟨w :: r.attempted, r.errorsLogged⟩
      | .exn => ⟨w :: r.attempted, w :: r.errorsLogged⟩

/-- scheduler.py send_discord_alert: return immediately when no webhook is
configured, else run the posting loop over the configured list. -/
def send_discord_alert (webhooks : List String) (outcome : String → PostOutcome) : AlertResult :=
  if webhooks.isEmpty then ⟨[], []⟩ else postLoop outcome webhooks

/-- Modelled from the spec: the quick-ticker allow-list of §3. The
current-revision API service that consults it is part of this repository but
absent from src/backend (src/backend/app.py holds the legacy split-endpoint
revision), so the list is taken from the specification text. -/
def QUICK_TICKERS : List String :=
  ["AAPL", "AMD", "AMZN", "COIN", "GLD", "GOOG", "GOOGL", "INTC", "IWM",
   "META", "MSFT", "MSTR", "MU", "NFLX", "NVDA", "PLTR", "QQQ", "SLV",
   "SOFI", "SPX", "SPY", "TLT", "TSLA", "TSM", "UNH"]

/-- Outcome of the live upstream fetch made by the current-revision
/api/chain handler. -/
inductive UpstreamResult where
  | ok (body : JsonVal)
  | badStatus (code : Nat)
  | netFailure

/-- True exactly when the live fetch did not yield a 200 response. -/
def UpstreamResult.failed : UpstreamResult → Bool
  | .ok _ => false
  | _ => true

/-- An HTTP response of the /api/chain endpoint: status code and JSON body. -/
structure ChainResponse where
  status : Nat
  body : JsonVal

/-- A one-field JSON error object, as produced by jsonify on an error dict. -/
def errorBody (msg : String) : JsonVal :=
  .obj [("error", .str msg)]

/-- Modelled from the spec: the current-revision GET /api/chain handler
(absent from src/backend, which holds only the legacy revision; spec §4.4).
On a 200 upstream response, return the provider JSON with 200. On upstream
non-200 or network failure, fall through: for a quick ticker with a cached
full_data row, return the cached JSON with 200; otherwise return the error
object with 503. The cached argument is the result of get_cached_chain. -/
def get_chain_current (ticker : String) (upstream : UpstreamResult)
    (cached : Option JsonVal) : ChainResponse :=
  match upstream with
  | .ok body => ⟨200, body⟩
  | _ =>
      if ticker ∈ QUICK_TICKERS then
        match cached with
        | some c => ⟨200, c⟩
        | none => ⟨503, errorBody "Data unavailable"⟩
      else ⟨503, errorBody "Data unavailable"⟩

/-! Helper lemmas. -/

theorem le_listMax1 (l : List ℚ) : ∀ x : ℚ, x ≤ listMax1 x l := by
  induction l with
  | nil => intro x; exact le_refl x
  | cons y ys ih =>
      intro x
      exact le_trans (le_max_left x y) (ih (max x y))

theorem mem_le_listMax1 (l : List ℚ) : ∀ x : ℚ, ∀ y ∈ l, y ≤ listMax1 x l := by
  induction l with
  | nil => intro x y hy; cases hy
  | cons z zs ih =>
      intro x y hy
      rcases List.mem_cons.mp hy with h | h
      · subst h
        exact le_trans (le_max_right x y) (le_listMax1 zs (max x y))
      · exact ih (max x z) y h

theorem listMax1_eq_or_mem (l : List ℚ) : ∀ x : ℚ, listMax1 x l = x ∨ listMax1 x l ∈ l := by
  induction l with
  | nil => intro x; exact Or.inl rfl
  | cons y ys ih =>
      intro x
      have hstep : listMax1 x (y :: ys) = listMax1 (max x y) ys := rfl
      rcases ih (max x y) with h | h
      · rcases max_choice x y with hm | hm
        · exact Or.inl (hstep.trans (h.trans hm))
        · refine Or.inr ?_
          rw [hstep, h, hm]
          exact List.mem_cons_self y ys
      · refine Or.inr (List.mem_cons_of_mem y ?_)
        rw [hstep]
        exact h

theorem filter_eq_nil_of_any_false {α : Type} (p : α → Bool) (l : List α)
    (h : l.any p = false) : l.filter p = [] := by
  rw [List.filter_eq_nil_iff]
  intro a ha
  have := List.any_eq_false.mp h a ha
  simpa using this

/-! Claim theorems. -/

/-- C7: for every numeric input v, _format_compact returns the string
v/1e9 to one decimal with suffix B when |v| is at least 1e9, the analogous
M and K forms on the bands [1e6, 1e9) and [1e3, 1e6), and the plain
one-decimal form below 1e3, preserving sign; in particular 999 gives 999.0,
1500 gives 1.5K, 2500000 gives 2.5M, 3200000000 gives 3.2B and -1500 gives
-1.5K. -/
theorem formatCompact_spec :
    (∀ v : ℚ,
      (1000000000 ≤ |v| → formatCompact v = fmt1 (v / 1000000000) ++ "B") ∧
      (1000000 ≤ |v| → |v| < 1000000000 → formatCompact v = fmt1 (v / 1000000) ++ "M") ∧
      (1000 ≤ |v| → |v| < 1000000 → formatCompact v = fmt1 (v / 1000) ++ "K") ∧
      (|v| < 1000 → formatCompact v = fmt1 v)) ∧
    formatCompact 999 = "999.0" ∧
    formatCompact 1500 = "1.5K" ∧
    formatCompact 2500000 = "2.5M" ∧
    formatCompact 3200000000 = "3.2B" ∧
    formatCompact (-1500) = "-1.5K" := by
  refine ⟨fun v => ⟨fun h => ?_, fun h h2 => ?_, fun h h2 => ?_, fun h => ?_⟩,
    by decide, by decide, by decide, by decide, by decide⟩
  · simp [formatCompact, h]
  · simp [formatCompact, h, not_le.mpr h2]
  · have h9 : |v| < 1000000000 := lt_trans h2 (by norm_num)
    simp [formatCompact, h, not_le.mpr h2, not_le.mpr h9]
  · have h6 : |v| < 1000000 := lt_trans h (by norm_num)
    have h9 : |v| < 1000000000 := lt_trans h (by norm_num)
    simp [formatCompact, not_le.mpr h, not_le.mpr h6, not_le.mpr h9]

/-- C7 witness: the B band of formatCompact_spec applied at 2000000000. -/
theorem formatCompact_spec_witness :
    formatCompact 2000000000 = fmt1 (2000000000 / 1000000000) ++ "B" :=
  (formatCompact_spec.1 2000000000).1 (by norm_num)

/-- C5: is_market_hours is false on Saturday and Sunday (weekday 5 and 6)
and on weekdays is true exactly when the Eastern time of day is within
[09:15:00, 16:05:00] inclusive; the boundary times 09:14:59, 09:15:00,
16:05:00 and 16:05:01 on a Tuesday behave as the claim lists. -/
theorem is_market_hours_spec :
    (∀ weekday todMicros : Nat,
      (5 ≤ weekday → is_market_hours weekday todMicros = false) ∧
      (weekday < 5 →
        (is_market_hours weekday todMicros = true ↔
          33300000000 ≤ todMicros ∧ todMicros ≤ 57900000000))) ∧
    is_market_hours 1 33299000000 = false ∧
    is_market_hours 1 33300000000 = true ∧
    is_market_hours 1 57900000000 = true ∧
    is_market_hours 1 57901000000 = false := by
  refine ⟨fun w tod => ⟨fun h => ?_, fun h => ?_⟩, by decide, by decide, by decide, by decide⟩
  · simp [is_market_hours, h]
  · simp [is_market_hours, Nat.not_le.mpr h]

/-- C5 witness: is_market_hours_spec applied on Saturday at midnight. -/
theorem is_market_hours_spec_witness : is_market_hours 5 0 = false :=
  (is_market_hours_spec.1 5 0).1 (by decide)

theorem trendPivotsScaled_eq (cd : ChainPayload) :
    trendPivotsScaled cd =
      if (filterStrikesNearSpot cd (2/100)).strikes.isEmpty then some []
      else if pyMaxOr1 (((filterStrikesNearSpot cd (2/100)).gexVol).map (fun v => |v|)) = 0
        then none
      else some (((filterStrikesNearSpot cd (2/100)).gexVol).map
        (fun v =>
          v / pyMaxOr1 (((filterStrikesNearSpot cd (2/100)).gexVol).map (fun w => |w|)) * 100)) :=
  rfl

theorem filterStrikes_lengths (cd : ChainPayload) (p : ℚ) :
    (filterStrikesNearSpot cd p).strikes.length = (filterStrikesNearSpot cd p).gexVol.length := by
  unfold filterStrikesNearSpot
  by_cases h : cd.spot.getD 0 = 0 <;> simp [h]

theorem mem_le_pyMaxOr1 (l : List ℚ) (y : ℚ) (hy : y ∈ l) : y ≤ pyMaxOr1 l := by
  cases l with
  | nil => cases hy
  | cons x xs =>
      rcases List.mem_cons.mp hy with h | h
      · subst h; exact le_listMax1 xs y
      · exact mem_le_listMax1 xs x y h

theorem pyMaxOr1_mem (l : List ℚ) (hl : l ≠ []) : pyMaxOr1 l ∈ l := by
  cases l with
  | nil => exact absurd rfl hl
  | cons x xs =>
      rcases listMax1_eq_or_mem xs x with h | h
      · rw [pyMaxOr1, h]; exact List.mem_cons_self x xs
      · exact List.mem_cons_of_mem x h

/-- C8: _filter_strikes_near_spot keeps exactly the strikes s with
spot*0.98 ≤ s ≤ spot*1.02, both bounds inclusive, mapping each kept entry to
its rounded strike, GEX-by-volume, GEX-by-OI and 4th tuple element as prior
with scalar 0 default; when spot is 0 (or absent) all four result lists are
empty regardless of the input strikes. -/
theorem filterStrikes_spec :
    ∀ cd : ChainPayload,
      (cd.spot.getD 0 = 0 → filterStrikesNearSpot cd (2/100) = ⟨[], [], [], []⟩) ∧
      (cd.spot.getD 0 ≠ 0 →
        filterStrikesNearSpot cd (2/100) =
          { strikes := ((cd.strikes.getD []).filter (fun s =>
                decide (cd.spot.getD 0 * (98/100) ≤ s.strike) &&
                decide (s.strike ≤ cd.spot.getD 0 * (102/100)))).map
              (fun s => roundHalfEven s.strike),
            gexVol := ((cd.strikes.getD []).filter (fun s =>
                decide (cd.spot.getD 0 * (98/100) ≤ s.strike) &&
                decide (s.strike ≤ cd.spot.getD 0 * (102/100)))).map (fun s => s.gexVol),
            gexOi := ((cd.strikes.getD []).filter (fun s =>
                decide (cd.spot.getD 0 * (98/100) ≤ s.strike) &&
                decide (s.strike ≤ cd.spot.getD 0 * (102/100)))).map (fun s => s.gexOi),
            priors := ((cd.strikes.getD []).filter (fun s =>
                decide (cd.spot.getD 0 * (98/100) ≤ s.strike) &&
                decide (s.strike ≤ cd.spot.getD 0 * (102/100)))).map
              (fun s => s.prior.getD (PriorVal.scalar 0)) }) := by
  intro cd
  constructor
  · intro h; simp [filterStrikesNearSpot, h]
  · intro h
    have h98 : (1 : ℚ) - 2/100 = 98/100 := by norm_num
    have h102 : (1 : ℚ) + 2/100 = 102/100 := by norm_num
    simp only [filterStrikesNearSpot, if_neg h, h98, h102]

/-- C8 example payload: spot 100 with strikes at 98, 97.9, 102 and 102.1. -/
def c8Example : ChainPayload :=
  { spot := some 100,
    strikes := some [⟨98, 5, 1, none⟩, ⟨979/10, 9, 9, none⟩,
                     ⟨102, -7, 2, some (PriorVal.scalar 3)⟩, ⟨1021/10, 9, 9, none⟩] }

/-- C8 witness: filterStrikes_spec applied at spot 100 keeps exactly the
boundary strikes 98 and 102 and drops 97.9 and 102.1. -/
theorem filterStrikes_spec_witness :
    c8Example.spot.getD 0 ≠ 0 ∧
    filterStrikesNearSpot c8Example (2/100) =
      ⟨[98, 102], [5, -7], [1, 2], [PriorVal.scalar 0, PriorVal.scalar 3]⟩ := by
  refine ⟨by decide, ?_⟩
  rw [(filterStrikes_spec c8Example).2 (by decide)]
  decide

/-- C6 all-zero payload: one in-range strike whose GEX-by-volume is 0. -/
def c6AllZero : ChainPayload :=
  { spot := some 100, strikes := some [⟨100, 0, 0, none⟩] }

/-- C6 mixed payload: in-range GEX-by-volume values 50 and -25. -/
def c6Mixed : ChainPayload :=
  { spot := some 100, strikes := some [⟨100, 50, 0, none⟩, ⟨101, -25, 0, none⟩] }

/-- C6 counterexample: a non-empty filtered strike set whose in-range
GEX-by-volume values are all zero makes the scaling of _draw_trend_pivots
divide by a zero maximum (a Python ZeroDivisionError, modelled as none),
instead of using 1 as the divisor as the claim states: the fallback divisor
1 is taken only when the value list is empty, which cannot happen here. -/
theorem trendPivots_counterexample :
    (filterStrikesNearSpot c6AllZero (2/100)).strikes = [100] ∧
    (∀ v ∈ (filterStrikesNearSpot c6AllZero (2/100)).gexVol, v = 0) ∧
    trendPivotsScaled c6AllZero = none := by decide

/-- C6 amended: for a non-empty filtered strike set containing a nonzero
GEX-by-volume value, the trend panel scales by dividing each value by the
maximum absolute in-range value, keeping every scaled value within ±100;
when the filtered set is non-empty and every in-range value is zero, the
division is by zero and raises. -/
theorem trendPivots_amended :
    ∀ cd : ChainPayload,
      let f := filterStrikesNearSpot cd (2/100)
      let m := pyMaxOr1 (f.gexVol.map (fun v => |v|))
      ((∃ v ∈ f.gexVol, v ≠ 0) →
        0 < m ∧ (∀ v ∈ f.gexVol, |v| ≤ m) ∧
        trendPivotsScaled cd = some (f.gexVol.map (fun v => v / m * 100)) ∧
        ∀ u ∈ f.gexVol.map (fun v => v / m * 100), |u| ≤ 100) ∧
      (f.strikes ≠ [] → (∀ v ∈ f.gexVol, v = 0) → trendPivotsScaled cd = none) := by
  intro cd
  intro f m
  have hlen := filterStrikes_lengths cd (2/100)
  constructor
  · rintro ⟨v0, hv0mem, hv0ne⟩
    have hne : f.gexVol ≠ [] := by
      intro hnil
      rw [hnil] at hv0mem
      cases hv0mem
    have hmapne : f.gexVol.map (fun v => |v|) ≠ [] := by
      simpa using hne
    have hle : ∀ v ∈ f.gexVol, |v| ≤ m := by
      intro v hv
      exact mem_le_pyMaxOr1 _ _ (List.mem_map_of_mem _ hv)
    have hmpos : 0 < m := lt_of_lt_of_le (abs_pos.mpr hv0ne) (hle v0 hv0mem)
    have hsne : f.strikes.isEmpty = false := by
      rw [List.isEmpty_eq_false_iff_exists_mem]
      rcases List.exists_mem_of_ne_nil _ hne with ⟨w, hw⟩
      have : f.strikes.length ≠ 0 := by
        rw [hlen]
        exact List.length_pos.mpr hne |>.ne'
      rcases List.exists_mem_of_ne_nil _ (List.length_pos.mp (Nat.pos_of_ne_zero this)) with ⟨u, hu⟩
      exact ⟨u, hu⟩
    refine ⟨hmpos, hle, ?_, ?_⟩
    · rw [trendPivotsScaled_eq]
      rw [show filterStrikesNearSpot cd (2/100) = f from rfl]
      rw [hsne]
      simp only [Bool.false_eq_true, if_false]
      rw [if_neg hmpos.ne']
    · intro u hu
      rcases List.mem_map.mp hu with ⟨v, hv, rfl⟩
      have habs : |v / m * 100| = |v| / m * 100 := by
        rw [abs_mul, abs_div, abs_of_pos hmpos]
        norm_num
      rw [habs]
      have h1 : |v| / m ≤ 1 := (div_le_one hmpos).mpr (hle v hv)
      calc |v| / m * 100 ≤ 1 * 100 := by
            exact mul_le_mul_of_nonneg_right h1 (by norm_num)
        _ = 100 := one_mul 100
  · intro hsne hallz
    have hne : f.gexVol ≠ [] := by
      intro hnil
      apply hsne
      have : f.strikes.length = 0 := by rw [hlen, hnil]; rfl
      exact List.length_eq_zero.mp this
    have hmapne : f.gexVol.map (fun v => |v|) ≠ [] := by simpa using hne
    have hm0 : m = 0 := by
      have hmem := pyMaxOr1_mem _ hmapne
      rcases List.mem_map.mp hmem with ⟨v, hv, hveq⟩
      have hmv : m = |v| := hveq.symm
      rw [hmv, hallz v hv, abs_zero]
    have hsne' : f.strikes.isEmpty = false :=
      List.isEmpty_eq_false_iff_exists_mem.mpr (List.exists_mem_of_ne_nil _ hsne)
    rw [trendPivotsScaled_eq]
    rw [show filterStrikesNearSpot cd (2/100) = f from rfl]
    rw [hsne']
    simp only [Bool.false_eq_true, if_false]
    rw [if_pos hm0]

/-- C6 amended witness: trendPivots_amended applied to the mixed payload,
whose values 50 and -25 scale to 100 and -50. -/
theorem trendPivots_amended_witness :
    trendPivotsScaled c6Mixed = some [100, -50] := by
  have h := ((trendPivots_amended c6Mixed).1 ⟨50, by decide, by decide⟩).2.2.1
  rw [h]
  decide

/-- The (ticker, timestamp) key test used to count gex_snapshots rows. -/
def keyPredSnap (t : String) (ts : Int) : SnapshotRow → Bool :=
  fun x => x.ticker == t && tsConflict x.timestamp (some ts)

/-- The (ticker, timestamp) key test used to count gex_major_levels rows. -/
def keyPredMajor (t : String) (ts : Int) : MajorRow → Bool :=
  fun x => x.ticker == t && tsConflict x.timestamp (some ts)

/-- C3: cache_chain_data writes the gex_snapshots row and the companion
gex_major_levels row in one transaction: when the first insert, the second
insert or the commit errors, the store is left exactly as before (rollback)
and the error is logged, the call still returning normally; when nothing
errors, both rows are inserted with conflict-ignoring semantics. -/
theorem cache_chain_transactional :
    ∀ (db : DB) (t : String) (d : ChainPayload) (e1 e2 ec : Bool),
      ((e1 = true ∨ e2 = true ∨ ec = true) →
        cache_chain_data db t d e1 e2 ec = ⟨db, true⟩) ∧
      (e1 = false → e2 = false → ec = false →
        cache_chain_data db t d e1 e2 ec =
          ⟨⟨insertSnap db.snapshots (snapshotRowOf t d),
            insertMajor db.majorLevels (majorRowOf t d)⟩, false⟩) := by
  intro db t d e1 e2 ec
  constructor
  · intro h
    cases e1 with
    | true => rfl
    | false =>
        cases e2 with
        | true => rfl
        | false =>
            cases ec with
            | true => rfl
            | false => rcases h with h | h | h <;> cases h
  · intro h1 h2 h3
    subst h1; subst h2; subst h3
    rfl

/-- C3 witness: cache_chain_transactional applied to an empty store with a
failing second insert: the store stays empty and the error is logged. -/
theorem cache_chain_transactional_witness :
    cache_chain_data ⟨[], []⟩ "SPX" {} false true false = ⟨⟨[], []⟩, true⟩ :=
  (cache_chain_transactional ⟨[], []⟩ "SPX" {} false true false).1 (Or.inr (Or.inl rfl))

/-- C2: for two chain payloads with the same (ticker, timestamp) key,
caching the first and then the second leaves exactly one gex_snapshots row
and one gex_major_levels row for that key, holding the first payload's
values; the second call is a no-op on the store even when the payload
content differs. -/
theorem cache_chain_idempotent :
    ∀ (db : DB) (t : String) (d1 d2 : ChainPayload) (ts : Int),
      d1.timestamp = some ts → d2.timestamp = some ts →
      db.snapshots.any (keyPredSnap t ts) = false →
      db.majorLevels.any (keyPredMajor t ts) = false →
      cache_chain_data (cache_chain_data db t d1 false false false).db t d2
          false false false
        = ⟨(cache_chain_data db t d1 false false false).db, false⟩ ∧
      (cache_chain_data db t d1 false false false).db.snapshots.filter (keyPredSnap t ts)
        = [snapshotRowOf t d1] ∧
      (cache_chain_data db t d1 false false false).db.majorLevels.filter (keyPredMajor t ts)
        = [majorRowOf t d1] := by
  intro db t d1 d2 ts h1 h2 hs hm
  have hpred1 : (fun x : SnapshotRow => snapConflicts x (snapshotRowOf t d1))
      = keyPredSnap t ts := by
    funext x
    show (x.ticker == t && tsConflict x.timestamp d1.timestamp) = keyPredSnap t ts x
    rw [h1]
    rfl
  have hpred2 : (fun x : SnapshotRow => snapConflicts x (snapshotRowOf t d2))
      = keyPredSnap t ts := by
    funext x
    show (x.ticker == t && tsConflict x.timestamp d2.timestamp) = keyPredSnap t ts x
    rw [h2]
    rfl
  have hpredM1 : (fun x : MajorRow => majorConflicts x (majorRowOf t d1))
      = keyPredMajor t ts := by
    funext x
    show (x.ticker == t && tsConflict x.timestamp d1.timestamp) = keyPredMajor t ts x
    rw [h1]
    rfl
  have hpredM2 : (fun x : MajorRow => majorConflicts x (majorRowOf t d2))
      = keyPredMajor t ts := by
    funext x
    show (x.ticker == t && tsConflict x.timestamp d2.timestamp) = keyPredMajor t ts x
    rw [h2]
    rfl
  have hrow1 : keyPredSnap t ts (snapshotRowOf t d1) = true := by
    show (t == t && tsConflict d1.timestamp (some ts)) = true
    rw [h1]
    simp [tsConflict]
  have hrowM1 : keyPredMajor t ts (majorRowOf t d1) = true := by
    show (t == t && tsConflict d1.timestamp (some ts)) = true
    rw [h1]
    simp [tsConflict]
  have hins1 : insertSnap db.snapshots (snapshotRowOf t d1)
      = db.snapshots ++ [snapshotRowOf t d1] := by
    simp only [insertSnap]
    rw [hpred1, hs]
    simp
  have hinsM1 : insertMajor db.majorLevels (majorRowOf t d1)
      = db.majorLevels ++ [majorRowOf t d1] := by
    simp only [insertMajor]
    rw [hpredM1, hm]
    simp
  have hdb1 : (cache_chain_data db t d1 false false false).db =
      ⟨db.snapshots ++ [snapshotRowOf t d1], db.majorLevels ++ [majorRowOf t d1]⟩ := by
    rw [show (cache_chain_data db t d1 false false false).db =
        ⟨insertSnap db.snapshots (snapshotRowOf t d1),
         insertMajor db.majorLevels (majorRowOf t d1)⟩ from rfl]
    rw [hins1, hinsM1]
  have hany2 : (db.snapshots ++ [snapshotRowOf t d1]).any
      (fun x => snapConflicts x (snapshotRowOf t d2)) = true := by
    rw [hpred2, List.any_append]
    simp [hrow1]
  have hanyM2 : (db.majorLevels ++ [majorRowOf t d1]).any
      (fun x => majorConflicts x (majorRowOf t d2)) = true := by
    rw [hpredM2, List.any_append]
    simp [hrowM1]
  have hins2 : insertSnap (db.snapshots ++ [snapshotRowOf t d1]) (snapshotRowOf t d2)
      = db.snapshots ++ [snapshotRowOf t d1] := by
    simp only [insertSnap]
    rw [hany2]
    simp
  have hinsM2 : insertMajor (db.majorLevels ++ [majorRowOf t d1]) (majorRowOf t d2)
      = db.majorLevels ++ [majorRowOf t d1] := by
    simp only [insertMajor]
    rw [hanyM2]
    simp
  refine ⟨?_, ?_, ?_⟩
  · rw [hdb1]
    rw [show cache_chain_data
        (⟨db.snapshots ++ [snapshotRowOf t d1], db.majorLevels ++ [majorRowOf t d1]⟩ : DB)
        t d2 false false false =
      ⟨⟨insertSnap (db.snapshots ++ [snapshotRowOf t d1]) (snapshotRowOf t d2),
        insertMajor (db.majorLevels ++ [majorRowOf t d1]) (majorRowOf t d2)⟩, false⟩ from rfl]
    rw [hins2, hinsM2]
  · rw [hdb1]
    show (db.snapshots ++ [snapshotRowOf t d1]).filter (keyPredSnap t ts)
      = [snapshotRowOf t d1]
    rw [List.filter_append, filter_eq_nil_of_any_false _ _ hs]
    simp [List.filter_cons, hrow1]
  · rw [hdb1]
    show (db.majorLevels ++ [majorRowOf t d1]).filter (keyPredMajor t ts)
      = [majorRowOf t d1]
    rw [List.filter_append, filter_eq_nil_of_any_false _ _ hm]
    simp [List.filter_cons, hrowM1]

/-- C2 payload with spot 5000 at timestamp 100. -/
def c2First : ChainPayload := { timestamp := some 100, spot := some 5000 }

/-- C2 payload with different content (spot 6000) at the same timestamp. -/
def c2Second : ChainPayload := { timestamp := some 100, spot := some 6000 }

/-- C2 witness: cache_chain_idempotent applied to an empty store and two
different payloads sharing timestamp 100: the second call leaves the store
unchanged. -/
theorem cache_chain_idempotent_witness :
    cache_chain_data (cache_chain_data ⟨[], []⟩ "SPX" c2First false false false).db
        "SPX" c2Second false false false
      = ⟨(cache_chain_data ⟨[], []⟩ "SPX" c2First false false false).db, false⟩ :=
  (cache_chain_idempotent ⟨[], []⟩ "SPX" c2First c2Second 100 rfl rfl rfl rfl).1

/-- C4 counterexample: when the chain fetch raises (network exception), the
single try block of fetch_and_cache_ticker jumps to its except handler, so
the max-change fetch for that ticker is skipped, contradicting the claim
that execution continues to the max-change step on a raised exception; the
failure is still alerted. -/
theorem scheduler_exception_skips_maxchange :
    (fetch_and_cache_ticker
      ⟨FetchResult.raised, FetchResult.ok (JsonVal.num 1)⟩).mcFetchAttempted = false ∧
    (fetch_and_cache_ticker
      ⟨FetchResult.raised, FetchResult.ok (JsonVal.num 1)⟩).exnAlerted = true :=
  ⟨rfl, rfl⟩

/-- C4 amended: on a non-200 chain status the failure is logged and alerted
and execution continues to the max-change fetch of the same ticker; on a
raised exception the failure is alerted but the max-change fetch of that
ticker is skipped; in both cases every configured ticker of the cycle is
still processed in order. -/
theorem scheduler_failure_flow :
    (∀ (env : TickerEnv) (c : Nat), env.chain = FetchResult.badStatus c →
      (fetch_and_cache_ticker env).chainAlerted = true ∧
      (fetch_and_cache_ticker env).mcFetchAttempted = true) ∧
    (∀ env : TickerEnv, env.chain = FetchResult.raised →
      (fetch_and_cache_ticker env).exnAlerted = true ∧
      (fetch_and_cache_ticker env).mcFetchAttempted = false) ∧
    (∀ (tickers : List String) (env : String → TickerEnv) (n : Nat),
      (fetch_cache_and_generate tickers env n).map (fun r => r.ticker) = tickers) := by
  refine ⟨?_, ?_, ?_⟩
  · rintro ⟨ce, me⟩ c h
    cases h
    cases me <;> exact ⟨rfl, rfl⟩
  · rintro ⟨ce, me⟩ h
    cases h
    exact ⟨rfl, rfl⟩
  · intro tickers env n
    simp [fetch_cache_and_generate, List.map_map, Function.comp_def]

/-- C4 witness: scheduler_failure_flow applied to a non-200 chain status:
the max-change fetch still runs. -/
theorem scheduler_failure_flow_witness :
    (fetch_and_cache_ticker
      ⟨FetchResult.badStatus 500, FetchResult.ok JsonVal.null⟩).mcFetchAttempted = true :=
  (scheduler_failure_flow.1 ⟨FetchResult.badStatus 500, FetchResult.ok JsonVal.null⟩ 500 rfl).2

/-- C9: the dashboard step runs only when both fetched payloads are truthy:
a 200 chain response with a falsy JSON body is still cached but suppresses
generation; a 200 max-change response with a falsy body (whenever the
max-change fetch runs at all) likewise; whenever the generation guard
passes, both payloads were present and truthy; and in a cycle every run
with a nonzero number of generate calls passed the guard. -/
theorem truthy_gate :
    (∀ (b : JsonVal) (mc : FetchResult), b.truthy = false →
      (fetch_and_cache_ticker ⟨FetchResult.ok b, mc⟩).chainCacheCalled = true ∧
      shouldGenerate (fetch_and_cache_ticker ⟨FetchResult.ok b, mc⟩) = false) ∧
    (∀ (cf : FetchResult) (mb : JsonVal), cf ≠ FetchResult.raised → mb.truthy = false →
      (fetch_and_cache_ticker ⟨cf, FetchResult.ok mb⟩).mcCacheCalled = true ∧
      shouldGenerate (fetch_and_cache_ticker ⟨cf, FetchResult.ok mb⟩) = false) ∧
    (∀ env : TickerEnv, shouldGenerate (fetch_and_cache_ticker env) = true →
      (∃ cb, (fetch_and_cache_ticker env).chainData = some cb ∧ cb.truthy = true) ∧
      (∃ mb, (fetch_and_cache_ticker env).mcData = some mb ∧ mb.truthy = true)) ∧
    (∀ (tickers : List String) (env : String → TickerEnv) (n : Nat),
      ∀ r ∈ fetch_cache_and_generate tickers env n,
        r.generateCalls ≠ 0 → shouldGenerate r.trace = true) := by
  refine ⟨?_, ?_, ?_, ?_⟩
  · intro b mc h
    cases mc <;> exact ⟨rfl, by simp [fetch_and_cache_ticker, shouldGenerate, h]⟩
  · intro cf mb hcf h
    cases cf with
    | ok body => exact ⟨rfl, by simp [fetch_and_cache_ticker, shouldGenerate, h]⟩
    | badStatus c => exact ⟨rfl, by simp [fetch_and_cache_ticker, shouldGenerate]⟩
    | raised => exact absurd rfl hcf
  · rintro ⟨ce, me⟩ h
    cases ce with
    | ok cb =>
        cases me with
        | ok mb =>
            simp only [fetch_and_cache_ticker, shouldGenerate, Bool.and_eq_true] at h
            exact ⟨⟨cb, rfl, h.1⟩, ⟨mb, rfl, h.2⟩⟩
        | badStatus c => simp [fetch_and_cache_ticker, shouldGenerate] at h
        | raised => simp [fetch_and_cache_ticker, shouldGenerate] at h
    | badStatus c =>
        cases me <;> simp [fetch_and_cache_ticker, shouldGenerate] at h
    | raised => simp [fetch_and_cache_ticker, shouldGenerate] at h
  · intro tickers env n r hr hcalls
    simp only [fetch_cache_and_generate, List.mem_map] at hr
    rcases hr with ⟨t, ht, rfl⟩
    by_cases hg : shouldGenerate (fetch_and_cache_ticker (env t)) = true
    · exact hg
    · exfalso
      apply hcalls
      simp [hg]

/-- C9 witness: truthy_gate applied to a 200 chain response whose body is an
empty JSON object: the payload is cached and generation is suppressed. -/
theorem truthy_gate_witness :
    (fetch_and_cache_ticker
      ⟨FetchResult.ok (JsonVal.obj []), FetchResult.ok (JsonVal.num 1)⟩).chainCacheCalled
        = true ∧
    shouldGenerate (fetch_and_cache_ticker
      ⟨FetchResult.ok (JsonVal.obj []), FetchResult.ok (JsonVal.num 1)⟩) = false :=
  truthy_gate.1 (JsonVal.obj []) (FetchResult.ok (JsonVal.num 1)) rfl

theorem postLoop_attempted (o : String → PostOutcome) (l : List String) :
    (postLoop o l).attempted = l := by
  induction l with
  | nil => rfl
  | cons w rest ih => cases h : o w <;> simp [postLoop, h, ih]

theorem postLoop_errors (o : String → PostOutcome) (l : List String) :
    (postLoop o l).errorsLogged = l.filter (fun w => (o w).isExn) := by
  induction l with
  | nil => rfl
  | cons w rest ih =>
      cases h : o w <;>
        simp [postLoop, h, ih, List.filter_cons, PostOutcome.isExn]

theorem postLoop_statusBlind (o1 o2 : String → PostOutcome)
    (h : ∀ w, (o1 w).isExn = (o2 w).isExn) (l : List String) :
    postLoop o1 l = postLoop o2 l := by
  induction l with
  | nil => rfl
  | cons w rest ih =>
      have hw := h w
      cases h1 : o1 w with
      | ok s1 =>
          cases h2 : o2 w with
          | ok s2 => simp [postLoop, h1, h2, ih]
          | exn => rw [h1, h2] at hw; simp [PostOutcome.isExn] at hw
      | exn =>
          cases h2 : o2 w with
          | ok s2 => rw [h1, h2] at hw; simp [PostOutcome.isExn] at hw
          | exn => simp [postLoop, h1, h2, ih]

/-- C10: send_discord_alert never inspects the webhook response status —
two outcome environments that agree on which posts raise produce identical
results even if the statuses are all different (a 4xx or 5xx response is
treated exactly like a 204); every configured webhook is attempted in order
regardless of earlier exceptions; and exactly the raising posts are logged
as errors. -/
theorem discord_alert_spec :
    ∀ (webhooks : List String) (o1 o2 : String → PostOutcome),
      (∀ w, (o1 w).isExn = (o2 w).isExn) →
      send_discord_alert webhooks o1 = send_discord_alert webhooks o2 ∧
      (send_discord_alert webhooks o1).attempted = webhooks ∧
      (send_discord_alert webhooks o1).errorsLogged
        = webhooks.filter (fun w => (o1 w).isExn) := by
  intro webhooks o1 o2 h
  cases webhooks with
  | nil => exact ⟨rfl, rfl, rfl⟩
  | cons w rest =>
      have hne : (w :: rest).isEmpty = false := rfl
      refine ⟨?_, ?_, ?_⟩
      · simp only [send_discord_alert, hne, Bool.false_eq_true, if_false]
        exact postLoop_statusBlind o1 o2 h _
      · simp only [send_discord_alert, hne, Bool.false_eq_true, if_false]
        exact postLoop_attempted o1 _
      · simp only [send_discord_alert, hne, Bool.false_eq_true, if_false]
        exact postLoop_errors o1 _

/-- C10 outcome environment: the first webhook raises, the rest return 500. -/
def outcomeExn500 : String → PostOutcome :=
  fun w => if w == "hook-a" then PostOutcome.exn else PostOutcome.ok 500

/-- C10 outcome environment: the first webhook raises, the rest return 204. -/
def outcomeExn204 : String → PostOutcome :=
  fun w => if w == "hook-a" then PostOutcome.exn else PostOutcome.ok 204

/-- C10 witness: discord_alert_spec applied to two webhooks where the first
post raises: a 500 response and a 204 response at the second webhook give
identical results, and both webhooks are attempted. -/
theorem discord_alert_spec_witness :
    send_discord_alert ["hook-a", "hook-b"] outcomeExn500
      = send_discord_alert ["hook-a", "hook-b"] outcomeExn204 ∧
    (send_discord_alert ["hook-a", "hook-b"] outcomeExn500).attempted
      = ["hook-a", "hook-b"] := by
  have h := discord_alert_spec ["hook-a", "hook-b"] outcomeExn500 outcomeExn204
    (fun w => by
      unfold outcomeExn500 outcomeExn204
      by_cases hw : (w == "hook-a") = true <;> simp [hw, PostOutcome.isExn])
  exact ⟨h.1, h.2.1⟩

/-- C1: for a quick ticker, when the live upstream fetch fails (non-200 or
network failure), the current-revision /api/chain handler returns the cached
JSON with 200 when a cached row exists, and the Data unavailable error with
503 when none does. The handler is modelled from the spec because the
current API service revision is not under src/backend. -/
theorem chain_fallback_spec :
    ∀ (t : String) (up : UpstreamResult) (cached : Option JsonVal),
      t ∈ QUICK_TICKERS → up.failed = true →
      (∀ c, cached = some c → get_chain_current t up cached = ⟨200, c⟩) ∧
      (cached = none →
        get_chain_current t up cached = ⟨503, errorBody "Data unavailable"⟩) := by
  intro t up cached hq hf
  cases up with
  | ok b => simp [UpstreamResult.failed] at hf
  | badStatus c =>
      constructor
      · intro c' hc
        subst hc
        simp [get_chain_current, hq]
      · intro hc
        subst hc
        simp [get_chain_current, hq]
  | netFailure =>
      constructor
      · intro c' hc
        subst hc
        simp [get_chain_current, hq]
      · intro hc
        subst hc
        simp [get_chain_current, hq]

/-- C1 witness: chain_fallback_spec applied to quick ticker SPX with a
network failure and an empty cache: the response is 503 Data unavailable. -/
theorem chain_fallback_spec_witness :
    get_chain_current "SPX" UpstreamResult.netFailure none
      = ⟨503, errorBody "Data unavailable"⟩ :=
  (chain_fallback_spec "SPX" UpstreamResult.netFailure none (by decide) rfl).2 rfl

end Gexbot
